import Mathlib

/-!
Verification of the Bull-Mart marketplace backend core: the pagination
computation, the derived product fields (discount percentage, stock status),
the search filter builder, the search aggregation pipeline assembly, the
login-lockout state machine, and the product service lifecycle operations
(create / update / delete with ownership checks).

JavaScript numbers are modelled as rationals (`ℚ`); `NaN` is modelled
explicitly where `Number()` coercion can produce it.  Timestamps
(`Date.now()`) are modelled as natural-number milliseconds.  Optional /
possibly-absent JavaScript values are modelled with `Option`.
-/

namespace BullMart

/-- JS `Math.ceil` on rationals. -/
def jsCeil (x : ℚ) : ℚ := (Int.ceil x : ℚ)

/-- JS `Math.round` on rationals: `⌊x + 1/2⌋` (Mathlib `round`), which agrees
with `Math.round` on all values arising here. -/
def jsRound (x : ℚ) : ℚ := (round x : ℚ)

/-! ## Pagination computation

`getPaginationInfo(page, limit, total)` from the backend utils module:
```js
const getPaginationInfo = (page, limit, total) => {
  const totalPages = Math.ceil(total / limit);
  const hasNextPage = page < totalPages;
  const hasPrevPage = page > 1;
  return { currentPage: page, totalPages, hasNextPage, hasPrevPage, total, limit };
};
```
-/

/-- The object returned by `getPaginationInfo`. -/
structure PaginationInfo where
  currentPage : ℚ
  totalPages : ℚ
  hasNextPage : Bool
  hasPrevPage : Bool
  total : ℚ
  limit : ℚ
deriving Repr, DecidableEq

/-- Embedding of the backend utils function `getPaginationInfo`. -/
def getPaginationInfo (page limit total : ℚ) : PaginationInfo :=
  let totalPages := jsCeil (total / limit)
  { currentPage := page
    totalPages := totalPages
    hasNextPage := decide (page < totalPages)
    hasPrevPage := decide (page > 1)
    total := total
    limit := limit }

/-- The pagination record built inline by `ProductService.searchProducts`
(`{ page, limit, total, pages: Math.ceil(total / limit) }`). -/
structure ServicePagination where
  page : ℚ
  limit : ℚ
  total : ℚ
  pages : ℚ
deriving Repr, DecidableEq

/-- Embedding of the `pagination` object returned by
`ProductService.searchProducts`. -/
def servicePagination (page limit total : ℚ) : ServicePagination :=
  { page := page, limit := limit, total := total, pages := jsCeil (total / limit) }

/-! ## Derived product fields -/

/-- Embedding of `productSchema.virtual('discountPercentage')`:
`if (originalPrice && price < originalPrice) return Math.round(((originalPrice - price) / originalPrice) * 100); return 0;`.
JS truthiness of a number: present and nonzero. -/
def discountPercentageVirtual (price : ℚ) (originalPrice : Option ℚ) : ℚ :=
  match originalPrice with
  | none => 0
  | some op => if op ≠ 0 ∧ price < op then jsRound ((op - price) / op * 100) else 0

/-- Embedding of the `$addFields` `discountPercentage` expression in
`ProductService.searchProducts` (and the search route): condition
`originalPrice ≠ null ∧ price < originalPrice`, value
`((originalPrice - price) / originalPrice) * 100` — with no rounding. -/
def discountPercentagePipeline (price : ℚ) (originalPrice : Option ℚ) : ℚ :=
  match originalPrice with
  | none => 0
  | some op => if price < op then (op - price) / op * 100 else 0

/-- The discount formula exactly as the specification words it: `0` when
`originalPrice` is absent or not greater than `price`, otherwise
`round(100 × (originalPrice − price) / originalPrice)`. -/
def discountPercentageSpec (price : ℚ) (originalPrice : Option ℚ) : ℚ :=
  match originalPrice with
  | none => 0
  | some op => if op ≤ price then 0 else jsRound (100 * (op - price) / op)

/-- Embedding of `productSchema.virtual('stockStatus')`:
quantity `0` → out-of-stock; quantity `≤` threshold → low-stock; else in-stock.
The `$addFields` `stockStatus` expression in the search pipeline is the same
decision tree. -/
def stockStatus (quantity lowStockThreshold : ℚ) : String :=
  if quantity = 0 then "out-of-stock"
  else if quantity ≤ lowStockThreshold then "low-stock"
  else "in-stock"

/-! ## Login lockout state machine

From the User model (`userSchema.methods.isLocked / incLoginAttempts /
resetLoginAttempts`) and the `POST /api/auth/login` handler.  Times are
natural-number milliseconds (`Date.now()`).
-/

/-- The `security` subdocument fields the lockout logic uses
(`loginAttempts` defaults to 0, `lockUntil` may be unset). -/
structure UserSecurity where
  loginAttempts : Nat
  lockUntil : Option Nat
deriving Repr, DecidableEq

/-- `2 * 60 * 60 * 1000` ms — the fixed 2-hour lock window. -/
def lockTimeMs : Nat := 2 * 60 * 60 * 1000

/-- `userSchema.methods.isLocked`:
`!!(this.security.lockUntil && this.security.lockUntil > Date.now())`. -/
def isLocked (sec : UserSecurity) (now : Nat) : Bool :=
  match sec.lockUntil with
  | some lu => decide (now < lu)
  | none => false

/-- The `$inc`/`$set` update built by `incLoginAttempts` when the
expired-lock branch is not taken: increment the attempt counter and set
`lockUntil = now + 2h` when the incremented counter reaches 5 and the
account is not already locked. -/
def incAndMaybeLock (sec : UserSecurity) (now : Nat) : UserSecurity :=
  { loginAttempts := sec.loginAttempts + 1
    lockUntil :=
      if 5 ≤ sec.loginAttempts + 1 ∧ isLocked sec now = false then
        some (now + lockTimeMs)
      else sec.lockUntil }

/-- `userSchema.methods.incLoginAttempts`: if a previous lock has expired
(`lockUntil && lockUntil < Date.now()`), restart the counter at 1 and unset
the lock; otherwise increment and possibly lock. -/
def incLoginAttempts (sec : UserSecurity) (now : Nat) : UserSecurity :=
  match sec.lockUntil with
  | some lu =>
    if lu < now then { loginAttempts := 1, lockUntil := none }
    else incAndMaybeLock sec now
  | none => incAndMaybeLock sec now

/-- `userSchema.methods.resetLoginAttempts`: `$unset` both fields
(reads back as counter 0, no lock). -/
def resetLoginAttempts (_sec : UserSecurity) : UserSecurity :=
  { loginAttempts := 0, lockUntil := none }

/-- The three outcomes of the login handler relevant to the lockout logic:
HTTP 423 (locked), HTTP 401 (invalid credentials), HTTP 200 (success). -/
inductive LoginResult
  | locked
  | invalidCredentials
  | success
deriving Repr, DecidableEq

/-- Embedding of the `POST /api/auth/login` handler for an existing user
with both fields supplied: check `isLocked` first (rejecting regardless of
the password), then compare the password, incrementing the attempt counter
on failure and resetting it on success. -/
def loginStep (sec : UserSecurity) (now : Nat) (passwordOk : Bool) :
    LoginResult × UserSecurity :=
  if isLocked sec now then (LoginResult.locked, sec)
  else if passwordOk = false then
    (LoginResult.invalidCredentials, incLoginAttempts sec now)
  else (LoginResult.success, resetLoginAttempts sec)

/-! ## Search filter builder (`productSchema.statics.advancedSearch`) -/

/-- JS truthiness of an optional string (`undefined` and `""` are falsy). -/
def truthyStr : Option String → Bool
  | none => false
  | some s => decide (s ≠ "")

/-- JS truthiness of an optional number (`undefined` and `0` are falsy). -/
def truthyNum : Option ℚ → Bool
  | none => false
  | some q => decide (q ≠ 0)

/-- JS truthiness of an optional boolean. -/
def truthyBool : Option Bool → Bool
  | none => false
  | some b => b

/-- The flat filter argument accepted by `advancedSearch`
(`location` is the `{lat, lng}` object, modelled as a pair). -/
structure SearchFilters where
  text : Option String := none
  category : Option String := none
  subcategory : Option String := none
  brand : Option String := none
  minPrice : Option ℚ := none
  maxPrice : Option ℚ := none
  condition : Option String := none
  status : Option String := none
  minRating : Option ℚ := none
  inStock : Option Bool := none
  location : Option (ℚ × ℚ) := none
  radius : Option ℚ := none
deriving Repr, DecidableEq

/-- The `query.price` object: `$gte` / `$lte` bounds. -/
structure PriceRange where
  gte : Option ℚ := none
  lte : Option ℚ := none
deriving Repr, DecidableEq

/-- The `$geoWithin`/`$centerSphere` constraint: centre `[lng, lat]` and
radius `Number(radius) * 1000 / 6378137` (a fraction of Earth's radius). -/
structure GeoCircle where
  centerLng : ℚ
  centerLat : ℚ
  radiusRadians : ℚ
deriving Repr, DecidableEq

/-- The query object built by `advancedSearch`: one optional constraint per
recognized filter.  `quantityGt` is the `inventory.quantity: { $gt: 0 }`
constraint added for `inStock`. -/
structure ProductQuery where
  text : Option String := none
  category : Option String := none
  subcategory : Option String := none
  brandRegex : Option String := none
  price : Option PriceRange := none
  condition : Option String := none
  status : Option String := none
  ratingGte : Option ℚ := none
  quantityGt : Option ℚ := none
  geo : Option GeoCircle := none
deriving Repr, DecidableEq

/-- Embedding of `productSchema.statics.advancedSearch`: each `if (filters.x)`
guard is JS truthiness; the `price` object is created when `minPrice` or
`maxPrice` is truthy, with each bound set only when itself truthy. -/
def advancedSearch (f : SearchFilters) : ProductQuery :=
  { text := if truthyStr f.text then f.text else none
    category := if truthyStr f.category then f.category else none
    subcategory := if truthyStr f.subcategory then f.subcategory else none
    brandRegex := if truthyStr f.brand then f.brand else none
    price :=
      if truthyNum f.minPrice || truthyNum f.maxPrice then
        some { gte := if truthyNum f.minPrice then f.minPrice else none
               lte := if truthyNum f.maxPrice then f.maxPrice else none }
      else none
    condition := if truthyStr f.condition then f.condition else none
    status := if truthyStr f.status then f.status else none
    ratingGte := if truthyNum f.minRating then f.minRating else none
    quantityGt := if truthyBool f.inStock then some 0 else none
    geo :=
      match f.location, f.radius with
      | some (lat, lng), some r =>
        if r ≠ 0 then
          some { centerLng := lng, centerLat := lat
                 radiusRadians := r * 1000 / 6378137 }
        else none
      | _, _ => none }

/-- The stored product fields the search query can constrain. -/
structure ProductDoc where
  name : String := ""
  description : String := ""
  brand : Option String := none
  category : String := ""
  subcategory : Option String := none
  condition : String := "good"
  status : String := "active"
  price : ℚ := 0
  ratingsAverage : ℚ := 0
  inventoryQuantity : ℚ := 0
  locationLat : ℚ := 0
  locationLng : ℚ := 0
deriving Repr, DecidableEq

/-- Exact-match constraint on a required string field. -/
def matchOptEq (c : Option String) (v : String) : Bool :=
  match c with
  | none => true
  | some s => decide (v = s)

/-- Exact-match constraint on an optional string field. -/
def matchOptEqOpt (c : Option String) (v : Option String) : Bool :=
  match c with
  | none => true
  | some s => decide (v = some s)

/-- Match the `price` range object (inclusive `$gte` / `$lte`). -/
def matchPriceRange (c : Option PriceRange) (price : ℚ) : Bool :=
  match c with
  | none => true
  | some r =>
    (match r.gte with | none => true | some m => decide (m ≤ price)) &&
    (match r.lte with | none => true | some m => decide (price ≤ m))

/-- MongoDB document matching for the query built by `advancedSearch`,
combining every present constraint conjunctively (MongoDB AND semantics).
The database primitives `$text`, case-insensitive `$regex`, and
`$geoWithin`/`$centerSphere` are external collaborators and are passed in
as predicate parameters. -/
def matchesQuery (textPred : String → ProductDoc → Bool)
    (regexPred : String → Option String → Bool)
    (geoPred : GeoCircle → ℚ → ℚ → Bool)
    (q : ProductQuery) (d : ProductDoc) : Bool :=
  (match q.text with | none => true | some t => textPred t d) &&
  matchOptEq q.category d.category &&
  matchOptEqOpt q.subcategory d.subcategory &&
  (match q.brandRegex with | none => true | some pat => regexPred pat d.brand) &&
  matchPriceRange q.price d.price &&
  matchOptEq q.condition d.condition &&
  matchOptEq q.status d.status &&
  (match q.ratingGte with | none => true | some m => decide (m ≤ d.ratingsAverage)) &&
  (match q.quantityGt with | none => true | some m => decide (m < d.inventoryQuantity)) &&
  (match q.geo with | none => true | some g => geoPred g d.locationLat d.locationLng)

/-! ## The search route's filter construction (`GET /api/products/search`)

The route handler builds the same shape of query inline, but from raw HTTP
query strings, coercing numeric parameters with JS `Number()` — which yields
`NaN` (not an error) on non-numeric strings.
-/

/-- A JS number that may be `NaN` (the result of `Number()` coercion). -/
inductive JSNum
  | nan
  | num (q : ℚ)
deriving Repr, DecidableEq

/-- Decimal digit value of a character, if it is a digit. -/
def digitVal (c : Char) : Option ℕ :=
  if c.isDigit then some (c.toNat - 48) else none

/-- Parse a nonempty all-digit character run as a natural number. -/
def parseNatDigits : List Char → Option ℕ
  | [] => none
  | cs =>
    cs.foldl
      (fun acc c =>
        match acc, digitVal c with
        | some n, some d => some (n * 10 + d)
        | _, _ => none)
      (some 0)

/-- Model of JS `Number()` on query strings: the empty string is `0`, a plain
decimal literal `[sign]digits[.digits]` is its rational value, and every
other string (in particular any non-numeric word such as `"abc"`) is `NaN`. -/
def jsNumber (s : String) : JSNum :=
  match s.data with
  | [] => JSNum.num 0
  | cs =>
    let signBody : ℚ × List Char :=
      match cs with
      | '-' :: r => (-1, r)
      | '+' :: r => (1, r)
      | r => (1, r)
    match signBody.2.splitOn '.' with
    | [intPart] =>
      match parseNatDigits intPart with
      | some n => JSNum.num (signBody.1 * n)
      | none => JSNum.nan
    | [intPart, fracPart] =>
      match parseNatDigits intPart, parseNatDigits fracPart with
      | some n, some fr =>
        JSNum.num (signBody.1 * ((n : ℚ) + (fr : ℚ) / (10 ^ fracPart.length)))
      | _, _ => JSNum.nan
    | _ => JSNum.nan

/-- `Number(radius) * 1000 / 6378137`, propagating `NaN`. -/
def jsScaleRadius : JSNum → JSNum
  | JSNum.nan => JSNum.nan
  | JSNum.num q => JSNum.num (q * 1000 / 6378137)

/-- A price bound set by the route (may be `NaN` after coercion). -/
structure RoutePriceRange where
  gte : Option JSNum := none
  lte : Option JSNum := none
deriving Repr, DecidableEq

/-- The route's geo constraint (each coordinate may be `NaN`). -/
structure RouteGeo where
  centerLng : JSNum
  centerLat : JSNum
  radiusRadians : JSNum
deriving Repr, DecidableEq

/-- The filter object the `/search` handler builds from the query string. -/
structure RouteFilters where
  text : Option String := none
  category : Option String := none
  subcategory : Option String := none
  brandRegex : Option String := none
  condition : Option String := none
  status : Option String := none
  ratingGte : Option JSNum := none
  quantityGt : Option ℚ := none
  price : Option RoutePriceRange := none
  geo : Option RouteGeo := none
deriving Repr, DecidableEq

/-- Read one query-string parameter (`req.query` destructuring). -/
def qget (ps : List (String × String)) (k : String) : Option String :=
  ps.lookup k

/-- `if (p) x = Number(p)`: coerce a truthy string parameter. -/
def numParam (v : Option String) : Option JSNum :=
  match v with
  | none => none
  | some s => if s = "" then none else some (jsNumber s)

/-- Embedding of the filter construction in the `GET /api/products/search`
handler: only the destructured parameter names are ever read, each guarded
by JS truthiness; numeric parameters go through `Number()`; `inStock` is
compared against the literal string `'true'`. -/
def routeSearchFilters (ps : List (String × String)) : RouteFilters :=
  let text := qget ps "text"
  let category := qget ps "category"
  let subcategory := qget ps "subcategory"
  let brand := qget ps "brand"
  let minPrice := qget ps "minPrice"
  let maxPrice := qget ps "maxPrice"
  let condition := qget ps "condition"
  let status := qget ps "status"
  let minRating := qget ps "minRating"
  let inStock := qget ps "inStock"
  let lat := qget ps "lat"
  let lng := qget ps "lng"
  let radius := qget ps "radius"
  { text := if truthyStr text then text else none
    category := if truthyStr category then category else none
    subcategory := if truthyStr subcategory then subcategory else none
    brandRegex := if truthyStr brand then brand else none
    condition := if truthyStr condition then condition else none
    status := if truthyStr status then status else none
    ratingGte := numParam minRating
    quantityGt := if inStock = some "true" then some 0 else none
    price :=
      if truthyStr minPrice || truthyStr maxPrice then
        some { gte := numParam minPrice, lte := numParam maxPrice }
      else none
    geo :=
      match lat, lng, radius with
      | some la, some lo, some ra =>
        if la ≠ "" ∧ lo ≠ "" ∧ ra ≠ "" then
          some { centerLng := jsNumber lo, centerLat := jsNumber la
                 radiusRadians := jsScaleRadius (jsNumber ra) }
        else none
      | _, _, _ => none }

/-- The query-string parameters the filter construction reads. -/
def searchFilterParamKeys : List String :=
  ["text", "category", "subcategory", "brand", "minPrice", "maxPrice",
   "condition", "status", "minRating", "inStock", "lat", "lng", "radius"]

/-! ## Search pipeline assembly (`ProductService.searchProducts`) -/

/-- The `$sort` specification: text-match score or a field with direction. -/
inductive SortSpec
  | textScore
  | byField (f : String) (descending : Bool)
deriving Repr, DecidableEq

/-- Aggregation pipeline stages, in the shapes `searchProducts` emits.
The `$addFields` contents are the derived-field functions above;
`$lookup`/seller extraction are the populate stages. -/
inductive PipelineStage
  | matchStage (q : ProductQuery)
  | addDerivedFields
  | sortStage (s : SortSpec)
  | skipStage (n : ℚ)
  | limitStage (n : ℚ)
  | lookupSeller
  | addSellerField
deriving Repr, DecidableEq

/-- Embedding of the pipeline assembly in `ProductService.searchProducts`:
match, derived fields, sort (special-casing `sortBy === 'relevance'` with a
truthy text filter), then `$skip ((page - 1) * limit)` and `$limit limit`
— computed as given, with no validation of `page` or `limit` — and the two
populate stages when requested. -/
def searchPipeline (filters : SearchFilters) (page limit : ℚ)
    (sortBy sortOrder : String) (populate : Bool) : List PipelineStage :=
  [PipelineStage.matchStage (advancedSearch filters), PipelineStage.addDerivedFields]
  ++ [PipelineStage.sortStage
       (if sortBy = "relevance" ∧ truthyStr filters.text then SortSpec.textScore
        else SortSpec.byField sortBy (sortOrder = "desc"))]
  ++ [PipelineStage.skipStage ((page - 1) * limit), PipelineStage.limitStage limit]
  ++ (if populate then [PipelineStage.lookupSeller, PipelineStage.addSellerField] else [])

/-! ## Product lifecycle (`ProductService.createProduct / updateProduct / deleteProduct`)

Stored documents are modelled as JS objects: association lists from field
names to values, with later `setField`s overwriting earlier keys, exactly
like object spread / `findByIdAndUpdate` field setting.
-/

/-- A JS field value. -/
inductive JVal
  | jstr (s : String)
  | jnum (q : ℚ)
  | jbool (b : Bool)
  | jnull
deriving Repr, DecidableEq

/-- A stored document: field name to value, keys unique by construction. -/
abbrev Doc := List (String × JVal)

/-- Read a document field. -/
def getField : Doc → String → Option JVal
  | [], _ => none
  | (a, b) :: rest, k => if k = a then some b else getField rest k

/-- Set (overwrite or append) a document field. -/
def setField : Doc → String → JVal → Doc
  | [], k, v => [(k, v)]
  | (k', v') :: rest, k, v =>
    if k' = k then (k, v) :: rest else (k', v') :: setField rest k v

/-- Apply an update payload field by field (`findByIdAndUpdate` `$set`). -/
def applyUpdates (d : Doc) (u : List (String × JVal)) : Doc :=
  u.foldl (fun acc kv => setField acc kv.1 kv.2) d

/-- `const { createdBy, createdAt, ...allowedUpdates } = updateData`:
the update payload without the two protected keys. -/
def stripProtectedFields (u : List (String × JVal)) : List (String × JVal) :=
  u.filter (fun kv => kv.1 ≠ "createdBy" && kv.1 ≠ "createdAt")

/-- The product collection: id to document. -/
abbrev ProductDB := List (String × Doc)

/-- `findById`: fetch the document stored under an id. -/
def dbGet : ProductDB → String → Option Doc
  | [], _ => none
  | (i, d) :: rest, id => if id = i then some d else dbGet rest id

/-- Replace the document stored under an id. -/
def dbSet : ProductDB → String → Doc → ProductDB
  | [], id, d => [(id, d)]
  | (id', d') :: rest, id, d =>
    if id' = id then (id, d) :: rest else (id', d') :: dbSet rest id d

/-- The document written by `findByIdAndUpdate(id, { ...allowedUpdates,
updatedAt: new Date() })`: the stripped payload applied on top of the stored
document, then `updatedAt` set last. -/
def updatedDoc (doc : Doc) (updateData : List (String × JVal)) (now : ℚ) : Doc :=
  setField (applyUpdates doc (stripProtectedFields updateData))
    "updatedAt" (JVal.jnum now)

/-- Embedding of `ProductService.updateProduct`: not-found check, ownership
check (`product.createdBy.toString() !== userId`), strip `createdBy` /
`createdAt` from the payload, apply the rest and refresh `updatedAt`.
Returns the updated document (`new: true`) and the updated collection. -/
def updateProduct (db : ProductDB) (id : String) (updateData : List (String × JVal))
    (userId : String) (now : ℚ) : Except String (Doc × ProductDB) :=
  match dbGet db id with
  | none => Except.error "Product not found"
  | some doc =>
    if getField doc "createdBy" ≠ some (JVal.jstr userId) then
      Except.error "You can only update your own products"
    else
      Except.ok (updatedDoc doc updateData now, dbSet db id (updatedDoc doc updateData now))

/-- Embedding of `ProductService.deleteProduct`: not-found check, ownership
check, remove the document, decrement the owner's `stats.productsListed`. -/
def deleteProduct (db : ProductDB) (id : String) (userId : String)
    (productsListed : ℚ) : Except String (ProductDB × ℚ) :=
  match dbGet db id with
  | none => Except.error "Product not found"
  | some doc =>
    if getField doc "createdBy" ≠ some (JVal.jstr userId) then
      Except.error "You can only delete your own products"
    else
      Except.ok (db.filter (fun e => e.1 ≠ id), productsListed - 1)

/-- One update request: target id, payload, acting user, timestamp. -/
structure UpdateOp where
  id : String
  updateData : List (String × JVal)
  userId : String
  now : ℚ

/-- One update request against the collection; a failed request leaves the
collection unchanged (the handler just reports the error). -/
def applyUpdateOp (db : ProductDB) (op : UpdateOp) : ProductDB :=
  match updateProduct db op.id op.updateData op.userId op.now with
  | Except.ok (_, db') => db'
  | Except.error _ => db

/-- Run a sequence of update requests. -/
def runUpdates (db : ProductDB) : List UpdateOp → ProductDB
  | [] => db
  | op :: ops => runUpdates (applyUpdateOp db op) ops

/-- The `createdBy` field of the product stored under an id (`none` when the
product does not exist). -/
def productOwner (db : ProductDB) (id : String) : Option (Option JVal) :=
  (dbGet db id).map (fun d => getField d "createdBy")

/-- An image in the creation payload. -/
structure ProductImage where
  url : String
  alt : Option String := none
  isPrimary : Bool := false
deriving Repr, DecidableEq

/-- The `inventory` subobject of the creation payload. -/
structure InventoryInput where
  sku : Option String := none
  quantity : Option ℚ := none
deriving Repr, DecidableEq

/-- The creation payload (`productData`), fields optional as in JS. -/
structure ProductInput where
  name : Option String := none
  description : Option String := none
  price : Option ℚ := none
  category : Option String := none
  location : Option (ℚ × ℚ) := none
  inventory : Option InventoryInput := none
  images : List ProductImage := []
deriving Repr, DecidableEq

/-- The required-field loop in `ProductService.createProduct`: the fields
`name, price, category, location` are checked in order with JS truthiness
(`!productData[field]`), so an absent field, the empty string, and the
number 0 all count as missing. -/
def missingRequiredField (d : ProductInput) : Option String :=
  if truthyStr d.name = false then some "name"
  else if truthyNum d.price = false then some "price"
  else if truthyStr d.category = false then some "category"
  else if d.location.isNone then some "location"
  else none

/-- `` `SKU-${Date.now()}-${Math.random().toString(36).substr(2, 9)}` ``:
the auto-generated SKU from the current timestamp and a random suffix
(both passed in explicitly here). -/
def generatedSku (now : Nat) (rand : String) : String :=
  "SKU-" ++ toString now ++ "-" ++ rand

/-- The persisted product (the fields the creation claims are about). -/
structure ProductRecord where
  name : String
  description : Option String
  price : ℚ
  category : String
  location : ℚ × ℚ
  sku : String
  images : List ProductImage
  createdBy : String
deriving Repr, DecidableEq

/-- The SKU the creation uses: `if (!productData.inventory?.sku)` generate,
else keep the supplied one (JS falsy: absent or the empty string). -/
def createdSku (d : ProductInput) (now : Nat) (rand : String) : String :=
  match d.inventory.bind (fun i => i.sku) with
  | some s => if s = "" then generatedSku now rand else s
  | none => generatedSku now rand

/-- `productData.images.map((image, index) => ({ ...image, isPrimary:
index === 0 }))`. -/
def markPrimaryImages (images : List ProductImage) : List ProductImage :=
  images.mapIdx (fun i img => { img with isPrimary := i == 0 })

/-- The product document persisted by a successful creation. -/
def createdRecord (d : ProductInput) (userId : String) (now : Nat)
    (rand : String) : ProductRecord :=
  { name := d.name.getD ""
    description := d.description
    price := d.price.getD 0
    category := d.category.getD ""
    location := d.location.getD (0, 0)
    sku := createdSku d now rand
    images := markPrimaryImages d.images
    createdBy := userId }

/-- Embedding of `ProductService.createProduct`: required-field loop
(throwing `"<field> is required"` at the first falsy field), SKU
auto-generation when `productData.inventory?.sku` is falsy, marking exactly
the first supplied image primary (`isPrimary: index === 0`), persisting
with `createdBy` = the acting user, and `$inc`-ing that user's
`stats.productsListed` by 1. -/
def createProduct (d : ProductInput) (userId : String) (now : Nat) (rand : String)
    (productsListed : ℚ) : Except String (ProductRecord × ℚ) :=
  match missingRequiredField d with
  | some f => Except.error (f ++ " is required")
  | none => Except.ok (createdRecord d userId now rand, productsListed + 1)

/-- `price: { type: Number, required: true, min: 0 }` in the Product schema:
the data model itself permits any non-negative price, including 0. -/
def priceSchemaAllows (p : ℚ) : Bool := decide (0 ≤ p)

/-! ## Theorems -/

/-- C1 counterexample: at `page = 2, limit = 1, total = 0` (inputs allowed by
the claim), `getPaginationInfo` returns `hasPrevPage = true`, while the
claim's `total = 0` clause demands both flags false. -/
theorem claim1_counterexample :
    (1 : ℚ) ≤ 2 ∧ (1 : ℚ) ≤ 1 ∧
    (getPaginationInfo 2 1 0).total = 0 ∧
    (getPaginationInfo 2 1 0).totalPages = 0 ∧
    (getPaginationInfo 2 1 0).hasPrevPage = true := by
  refine ⟨by norm_num, le_refl 1, rfl, ?_, ?_⟩
  · show jsCeil (0 / 1) = 0
    simp [jsCeil]
  · show decide ((2 : ℚ) > 1) = true
    rw [decide_eq_true_iff]
    norm_num

/-- C1 (amended): for every `page ≥ 1`, `limit ≥ 1`, `total ≥ 0`, the
pagination computation returns `totalPages = ceil(total / limit)`,
`hasNextPage` exactly when `page < totalPages`, and `hasPrevPage` exactly
when `page > 1`; when `total = 0` it returns `totalPages = 0` with
`hasNextPage` false, while `hasPrevPage` still equals `page > 1`.  The
service-side pagination record computes the same `pages` value. -/
theorem claim1_pagination (page limit total : ℚ)
    (hp : 1 ≤ page) (_hl : 1 ≤ limit) (ht : 0 ≤ total) :
    (getPaginationInfo page limit total).totalPages = jsCeil (total / limit) ∧
    ((getPaginationInfo page limit total).hasNextPage = true ↔
      page < (getPaginationInfo page limit total).totalPages) ∧
    ((getPaginationInfo page limit total).hasPrevPage = true ↔ 1 < page) ∧
    (total = 0 →
      (getPaginationInfo page limit total).totalPages = 0 ∧
      (getPaginationInfo page limit total).hasNextPage = false) ∧
    (servicePagination page limit total).pages = jsCeil (total / limit) := by
  refine ⟨rfl, by simp [getPaginationInfo], by simp [getPaginationInfo], ?_, rfl⟩
  intro h0
  subst h0
  have hc : jsCeil (0 / limit) = 0 := by
    simp [jsCeil]
  refine ⟨hc, ?_⟩
  have : ¬ page < (getPaginationInfo page limit 0).totalPages := by
    simp only [getPaginationInfo]
    rw [hc]
    intro h
    linarith
  simpa [getPaginationInfo] using this

/-- C1 witness: the amended theorem instantiated at `page = 1, limit = 20,
total = 0`. -/
theorem claim1_pagination_witness :
    (getPaginationInfo 1 20 0).totalPages = jsCeil (0 / 20) ∧
    ((getPaginationInfo 1 20 0).hasNextPage = true ↔
      (1 : ℚ) < (getPaginationInfo 1 20 0).totalPages) ∧
    ((getPaginationInfo 1 20 0).hasPrevPage = true ↔ (1 : ℚ) < 1) ∧
    ((0 : ℚ) = 0 →
      (getPaginationInfo 1 20 0).totalPages = 0 ∧
      (getPaginationInfo 1 20 0).hasNextPage = false) ∧
    (servicePagination 1 20 0).pages = jsCeil (0 / 20) :=
  claim1_pagination 1 20 0 (by norm_num) (by norm_num) (by norm_num)

/-- C3 counterexample: at `price = 2, originalPrice = 3`, the search
pipeline's derived `discountPercentage` is the unrounded `100/3`, not the
rounded value `33` the claim demands. -/
theorem claim3_counterexample :
    discountPercentagePipeline 2 (some 3) = 100 / 3 ∧
    discountPercentageSpec 2 (some 3) = 33 ∧
    discountPercentagePipeline 2 (some 3) ≠ discountPercentageSpec 2 (some 3) := by
  have h1 : discountPercentagePipeline 2 (some 3) = 100 / 3 := by
    norm_num [discountPercentagePipeline]
  have h2 : discountPercentageSpec 2 (some 3) = 33 := by
    norm_num [discountPercentageSpec, jsRound, round_eq]
  refine ⟨h1, h2, ?_⟩
  rw [h1, h2]
  norm_num

/-- C3 (amended): for every product with non-negative price, the virtual
`discountPercentage` equals the claimed formula (0 when `originalPrice` is
absent or not greater than `price`, else the rounded percentage), while the
search pipeline's derived `discountPercentage` is the same quantity without
the rounding (the virtual is exactly the rounding of the pipeline value). -/
theorem claim3_discount (price : ℚ) (originalPrice : Option ℚ) (hp : 0 ≤ price) :
    discountPercentageVirtual price originalPrice =
      discountPercentageSpec price originalPrice ∧
    discountPercentageVirtual price originalPrice =
      jsRound (discountPercentagePipeline price originalPrice) := by
  cases originalPrice with
  | none => simp [discountPercentageVirtual, discountPercentageSpec,
      discountPercentagePipeline, jsRound]
  | some op =>
    by_cases hop : op = 0
    · subst hop
      have hnlt : ¬ price < 0 := not_lt.mpr hp
      simp [discountPercentageVirtual, discountPercentageSpec,
        discountPercentagePipeline, jsRound, hnlt, hp]
    · by_cases hlt : price < op
      · have hnle : ¬ op ≤ price := not_le.mpr hlt
        have harg : (op - price) / op * 100 = 100 * (op - price) / op := by
          ring
        simp [discountPercentageVirtual, discountPercentageSpec,
          discountPercentagePipeline, jsRound, hop, hlt, hnle, harg]
      · have hle : op ≤ price := not_lt.mp hlt
        simp [discountPercentageVirtual, discountPercentageSpec,
          discountPercentagePipeline, jsRound, hop, hlt, hle]

/-- C3 witness: the amended theorem instantiated at `price = 2,
originalPrice = 4`. -/
theorem claim3_discount_witness :
    (0 : ℚ) ≤ 2 ∧
    (discountPercentageVirtual 2 (some 4) = discountPercentageSpec 2 (some 4) ∧
      discountPercentageVirtual 2 (some 4) =
        jsRound (discountPercentagePipeline 2 (some 4))) :=
  ⟨by norm_num, claim3_discount 2 (some 4) (by norm_num)⟩

/-- C6 (confirmed): for every quantity `≥ 0` and every threshold,
`stockStatus` yields exactly one of the three states, out-of-stock exactly
when the quantity is 0, low-stock exactly when `0 < quantity ≤ threshold`,
and in-stock exactly otherwise. -/
theorem claim6_stock_status (q T : ℚ) (hq : 0 ≤ q) :
    (stockStatus q T = "out-of-stock" ∨ stockStatus q T = "low-stock" ∨
      stockStatus q T = "in-stock") ∧
    (stockStatus q T = "out-of-stock" ↔ q = 0) ∧
    (stockStatus q T = "low-stock" ↔ 0 < q ∧ q ≤ T) ∧
    (stockStatus q T = "in-stock" ↔ ¬ (q = 0) ∧ ¬ (0 < q ∧ q ≤ T)) := by
  unfold stockStatus
  rcases eq_or_lt_of_le hq with h0 | h0
  · have hq0 : q = 0 := h0.symm
    simp [hq0]
  · have hne : ¬ q = 0 := ne_of_gt h0
    by_cases hT : q ≤ T
    · simp [hne, hT, h0]
    · simp [hne, hT, h0]

/-- C6 witness: `quantity = 3`, `threshold = 5` is low-stock and nothing
else. -/
theorem claim6_stock_status_witness :
    (stockStatus 3 5 = "out-of-stock" ∨ stockStatus 3 5 = "low-stock" ∨
      stockStatus 3 5 = "in-stock") ∧
    (stockStatus 3 5 = "out-of-stock" ↔ (3 : ℚ) = 0) ∧
    (stockStatus 3 5 = "low-stock" ↔ (0 : ℚ) < 3 ∧ (3 : ℚ) ≤ 5) ∧
    (stockStatus 3 5 = "in-stock" ↔
      ¬ ((3 : ℚ) = 0) ∧ ¬ ((0 : ℚ) < 3 ∧ (3 : ℚ) ≤ 5)) :=
  claim6_stock_status 3 5 (by norm_num)

/-- C2 (confirmed): the login lockout state machine.  (1) A failed attempt
with fewer than 4 prior consecutive failures increments the counter and sets
no lock; (2) the 5th consecutive failure locks the account for exactly 2
hours from that moment; (3) while locked, every attempt is rejected with the
distinct locked response regardless of password correctness, leaving the
state unchanged; (4) a successful login while unlocked resets the counter to
0; (5) once the window has elapsed the account is treated as unlocked on the
next attempt: a correct password succeeds and resets the counter, and (6) a
wrong password is an ordinary failure restarting the counter at 1. -/
theorem claim2_lockout :
    (∀ (sec : UserSecurity) (now : Nat), sec.lockUntil = none →
      sec.loginAttempts + 1 < 5 →
      loginStep sec now false =
        (LoginResult.invalidCredentials,
         { loginAttempts := sec.loginAttempts + 1, lockUntil := none })) ∧
    (∀ (sec : UserSecurity) (now : Nat), sec.lockUntil = none →
      sec.loginAttempts = 4 →
      loginStep sec now false =
        (LoginResult.invalidCredentials,
         { loginAttempts := 5, lockUntil := some (now + 2 * 60 * 60 * 1000) })) ∧
    (∀ (sec : UserSecurity) (now : Nat) (pw : Bool) (lu : Nat),
      sec.lockUntil = some lu → now < lu →
      loginStep sec now pw = (LoginResult.locked, sec)) ∧
    (∀ (sec : UserSecurity) (now : Nat), isLocked sec now = false →
      loginStep sec now true =
        (LoginResult.success, { loginAttempts := 0, lockUntil := none })) ∧
    (∀ (sec : UserSecurity) (now : Nat) (lu : Nat),
      sec.lockUntil = some lu → lu ≤ now →
      loginStep sec now true =
        (LoginResult.success, { loginAttempts := 0, lockUntil := none })) ∧
    (∀ (sec : UserSecurity) (now : Nat) (lu : Nat),
      sec.lockUntil = some lu → lu < now →
      loginStep sec now false =
        (LoginResult.invalidCredentials,
         { loginAttempts := 1, lockUntil := none })) := by
  refine ⟨?_, ?_, ?_, ?_, ?_, ?_⟩
  · intro sec now hnone hlt
    have hlock : isLocked sec now = false := by simp [isLocked, hnone]
    have hcond : ¬ (5 ≤ sec.loginAttempts + 1 ∧ isLocked sec now = false) := by
      intro h
      omega
    simp [loginStep, hlock, incLoginAttempts, hnone, incAndMaybeLock, hcond]
    omega
  · intro sec now hnone h4
    have hlock : isLocked sec now = false := by simp [isLocked, hnone]
    simp [loginStep, hlock, incLoginAttempts, hnone, incAndMaybeLock, h4,
      lockTimeMs]
  · intro sec now pw lu hlu hnow
    have hlock : isLocked sec now = true := by simp [isLocked, hlu, hnow]
    simp [loginStep, hlock]
  · intro sec now hlock
    simp [loginStep, hlock, resetLoginAttempts]
  · intro sec now lu hlu hle
    have hlock : isLocked sec now = false := by
      simp [isLocked, hlu]
      omega
    simp [loginStep, hlock, resetLoginAttempts]
  · intro sec now lu hlu hlt
    have hlock : isLocked sec now = false := by
      simp [isLocked, hlu]
      omega
    simp [loginStep, hlock, incLoginAttempts, hlu, hlt]

/-- C2 witness: from 4 prior failures and no lock, a 5th failure at
`t = 1000` locks until `1000 + 2h`; while locked (until `8201000`), an
attempt at `t = 1500` with a correct password is rejected as locked. -/
theorem claim2_lockout_witness :
    loginStep { loginAttempts := 4, lockUntil := none } 1000 false =
      (LoginResult.invalidCredentials,
       { loginAttempts := 5, lockUntil := some (1000 + 2 * 60 * 60 * 1000) }) ∧
    loginStep { loginAttempts := 5, lockUntil := some 8201000 } 1500 true =
      (LoginResult.locked, { loginAttempts := 5, lockUntil := some 8201000 }) :=
  ⟨claim2_lockout.2.1 { loginAttempts := 4, lockUntil := none } 1000 rfl rfl,
   claim2_lockout.2.2.1 { loginAttempts := 5, lockUntil := some 8201000 }
     1500 true 8201000 rfl (by norm_num)⟩

/-- C4 counterexample: supplying `maxPrice = 0` (a value the claim covers:
"either or both, independently") imposes no price constraint at all, because
JS `0` is falsy in `if (filters.minPrice || filters.maxPrice)`; a product
priced 5 still matches, though the claim requires `price ≤ 0`. -/
theorem claim4_counterexample :
    (advancedSearch { maxPrice := some 0 }).price = none ∧
    matchesQuery (fun _ _ => false) (fun _ _ => false) (fun _ _ _ => false)
      (advancedSearch { maxPrice := some 0 }) { price := 5 } = true :=
  ⟨rfl, rfl⟩

/-- C4 (amended): the filter builder combines supplied criteria with AND
semantics and absent criteria impose no constraint — no filters matches
every document — and `minPrice`/`maxPrice` constrain price to the inclusive
range, either or both independently, provided the supplied bound is nonzero
(a zero bound is treated as absent).  In particular `minPrice = 10,
maxPrice = 50` matches exactly the prices in `[10, 50]`, excluding `9.99`
and `50.01`.  The database primitives (`$text`, `$regex`, `$centerSphere`)
are arbitrary parameters. -/
theorem claim4_filter (tp : String → ProductDoc → Bool)
    (rp : String → Option String → Bool) (gp : GeoCircle → ℚ → ℚ → Bool) :
    (∀ d : ProductDoc, matchesQuery tp rp gp (advancedSearch {}) d = true) ∧
    (∀ (mn mx : ℚ) (d : ProductDoc), mn ≠ 0 → mx ≠ 0 →
      (matchesQuery tp rp gp
          (advancedSearch { minPrice := some mn, maxPrice := some mx }) d = true ↔
        mn ≤ d.price ∧ d.price ≤ mx)) ∧
    (∀ (mn : ℚ) (d : ProductDoc), mn ≠ 0 →
      (matchesQuery tp rp gp (advancedSearch { minPrice := some mn }) d = true ↔
        mn ≤ d.price)) ∧
    (∀ (mx : ℚ) (d : ProductDoc), mx ≠ 0 →
      (matchesQuery tp rp gp (advancedSearch { maxPrice := some mx }) d = true ↔
        d.price ≤ mx)) ∧
    (∀ p : ℚ,
      matchesQuery tp rp gp
          (advancedSearch { minPrice := some 10, maxPrice := some 50 })
          { price := p } = true ↔ 10 ≤ p ∧ p ≤ 50) := by
  refine ⟨fun d => rfl, ?_, ?_, ?_, ?_⟩
  · intro mn mx d hmn hmx
    simp [matchesQuery, advancedSearch, truthyNum, truthyStr, truthyBool,
      matchOptEq, matchOptEqOpt, matchPriceRange, hmn, hmx]
  · intro mn d hmn
    simp [matchesQuery, advancedSearch, truthyNum, truthyStr, truthyBool,
      matchOptEq, matchOptEqOpt, matchPriceRange, hmn]
  · intro mx d hmx
    simp [matchesQuery, advancedSearch, truthyNum, truthyStr, truthyBool,
      matchOptEq, matchOptEqOpt, matchPriceRange, hmx]
  · intro p
    have h10 : (10 : ℚ) ≠ 0 := by norm_num
    have h50 : (50 : ℚ) ≠ 0 := by norm_num
    simp [matchesQuery, advancedSearch, truthyNum, truthyStr, truthyBool,
      matchOptEq, matchOptEqOpt, matchPriceRange, h10, h50]

/-- C4 witness: the range conjunct instantiated at `minPrice = 10,
maxPrice = 50` and a document priced 30. -/
theorem claim4_filter_witness :
    (10 : ℚ) ≠ 0 ∧ (50 : ℚ) ≠ 0 ∧
    (matchesQuery (fun _ _ => false) (fun _ _ => false) (fun _ _ _ => false)
        (advancedSearch { minPrice := some 10, maxPrice := some 50 })
        { price := 30 } = true ↔
      (10 : ℚ) ≤ 30 ∧ (30 : ℚ) ≤ 50) :=
  ⟨by norm_num, by norm_num,
   (claim4_filter (fun _ _ => false) (fun _ _ => false) (fun _ _ _ => false)).2.1
     10 50 { price := 30 } (by norm_num) (by norm_num)⟩

/-- Prepending a query parameter with a different key changes no lookup. -/
theorem lookup_cons_ne {β : Type} (a k : String) (v : β) (ps : List (String × β))
    (h : a ≠ k) : List.lookup a ((k, v) :: ps) = List.lookup a ps := by
  simp [List.lookup, beq_eq_false_iff_ne.mpr h]

/-- C5 counterexample: the search route builds its filter with
`Number(minPrice)`; for `minPrice = "abc"` this yields `NaN`, which is
stored as the `$gte` bound with no validation error anywhere — the claim's
required validation error does not exist. -/
theorem claim5_counterexample :
    jsNumber "abc" = JSNum.nan ∧
    routeSearchFilters [("minPrice", "abc")] =
      { price := some { gte := some JSNum.nan, lte := none } } :=
  ⟨rfl, rfl⟩

/-- C5 (amended): unknown or extra query parameters are silently ignored
(the handler reads only its destructured parameter names), and malformed
numeric parameters are not rejected: a non-numeric string supplied for a
numeric filter is silently coerced by `Number()` to `NaN` and embedded in
the filter, with no validation error raised. -/
theorem claim5_params :
    (∀ (ps : List (String × String)) (k v : String), k ∉ searchFilterParamKeys →
      routeSearchFilters ((k, v) :: ps) = routeSearchFilters ps) ∧
    (∀ s : String, s ≠ "" → jsNumber s = JSNum.nan →
      (routeSearchFilters [("minPrice", s)]).price =
        some { gte := some JSNum.nan, lte := none }) := by
  constructor
  · intro ps k v hk
    simp only [searchFilterParamKeys, List.mem_cons, List.mem_singleton,
      not_or] at hk
    obtain ⟨h1, h2, h3, h4, h5, h6, h7, h8, h9, h10, h11, h12, h13, -⟩ := hk
    unfold routeSearchFilters qget
    rw [lookup_cons_ne _ _ _ _ (Ne.symm h1), lookup_cons_ne _ _ _ _ (Ne.symm h2),
      lookup_cons_ne _ _ _ _ (Ne.symm h3), lookup_cons_ne _ _ _ _ (Ne.symm h4),
      lookup_cons_ne _ _ _ _ (Ne.symm h5), lookup_cons_ne _ _ _ _ (Ne.symm h6),
      lookup_cons_ne _ _ _ _ (Ne.symm h7), lookup_cons_ne _ _ _ _ (Ne.symm h8),
      lookup_cons_ne _ _ _ _ (Ne.symm h9), lookup_cons_ne _ _ _ _ (Ne.symm h10),
      lookup_cons_ne _ _ _ _ (Ne.symm h11), lookup_cons_ne _ _ _ _ (Ne.symm h12),
      lookup_cons_ne _ _ _ _ (Ne.symm h13)]
  · intro s hs hn
    simp [routeSearchFilters, qget, numParam, truthyStr, hs, hn, List.lookup]

/-- C5 witness: an unrecognized parameter `zzz` leaves the built filter
unchanged. -/
theorem claim5_params_witness :
    "zzz" ∉ searchFilterParamKeys ∧
    routeSearchFilters [("zzz", "1"), ("category", "books")] =
      routeSearchFilters [("category", "books")] :=
  ⟨by decide, claim5_params.1 [("category", "books")] "zzz" "1" (by decide)⟩

/-- C9 counterexample: `searchProducts` performs no validation of `page` or
`limit`: at `page = 0, limit = 20` it still assembles a pipeline, whose skip
stage is the negative `$skip (-20)` — there is no validation error. -/
theorem claim9_counterexample :
    searchPipeline {} 0 20 "createdAt" "desc" false =
      [PipelineStage.matchStage (advancedSearch {}), PipelineStage.addDerivedFields,
       PipelineStage.sortStage (SortSpec.byField "createdAt" true),
       PipelineStage.skipStage (-20), PipelineStage.limitStage 20] := by
  have h : ((0 : ℚ) - 1) * 20 = -20 := by norm_num
  simp [searchPipeline, h]

/-- C9 (amended): the search pipeline always applies
`$skip ((page − 1) × limit)` and `$limit limit` exactly as given, for every
`page` and `limit` — including values below 1, for which no validation error
is raised (a negative skip is passed through to the database). -/
theorem claim9_pagination_stages (filters : SearchFilters) (page limit : ℚ)
    (sortBy sortOrder : String) (populate : Bool) :
    (searchPipeline filters page limit sortBy sortOrder populate)[3]? =
      some (PipelineStage.skipStage ((page - 1) * limit)) ∧
    (searchPipeline filters page limit sortBy sortOrder populate)[4]? =
      some (PipelineStage.limitStage limit) := by
  constructor <;> simp [searchPipeline]

/-- Writing one field leaves every other field unchanged. -/
theorem getField_setField_ne (d : Doc) (k k' : String) (v : JVal) (h : k ≠ k') :
    getField (setField d k v) k' = getField d k' := by
  induction d with
  | nil => simp [setField, getField, Ne.symm h]
  | cons kv rest ih =>
    obtain ⟨a, b⟩ := kv
    by_cases ha : a = k
    · subst ha
      simp [setField, getField, Ne.symm h]
    · by_cases hk' : k' = a
      · simp [setField, getField, ha, hk']
      · simp [setField, getField, ha, hk', ih]

/-- Applying an update payload that never mentions a key leaves that key's
field unchanged. -/
theorem getField_applyUpdates_ne (u : List (String × JVal)) (d : Doc) (k : String)
    (h : ∀ kv ∈ u, kv.1 ≠ k) :
    getField (applyUpdates d u) k = getField d k := by
  induction u generalizing d with
  | nil => rfl
  | cons kv rest ih =>
    have h1 : kv.1 ≠ k := h kv (List.mem_cons_self kv rest)
    have h2 : ∀ kv' ∈ rest, kv'.1 ≠ k :=
      fun kv' hm => h kv' (List.mem_cons_of_mem _ hm)
    show getField (applyUpdates (setField d kv.1 kv.2) rest) k = getField d k
    rw [ih _ h2, getField_setField_ne _ _ _ _ h1]

/-- Every entry surviving the destructuring strip has a key other than
`createdBy` and `createdAt`. -/
theorem stripProtectedFields_keys (u : List (String × JVal)) :
    ∀ kv ∈ stripProtectedFields u, kv.1 ≠ "createdBy" ∧ kv.1 ≠ "createdAt" := by
  intro kv hm
  have hp := List.of_mem_filter hm
  simpa [Bool.and_eq_true, decide_eq_true_eq] using hp

/-- Fetching from a collection after replacing one document. -/
theorem dbGet_dbSet (db : ProductDB) (id pid : String) (d : Doc) :
    dbGet (dbSet db id d) pid = if pid = id then some d else dbGet db pid := by
  induction db with
  | nil => simp [dbSet, dbGet]
  | cons e rest ih =>
    obtain ⟨i, dd⟩ := e
    by_cases hi : i = id
    · subst hi
      by_cases hp : pid = i <;> simp [dbSet, dbGet, hp]
    · by_cases hp : pid = i
      · subst hp
        simp [dbSet, dbGet, hi, Ne.symm (fun he => hi he.symm)]
      · simp [dbSet, dbGet, hi, hp, ih]

/-- Writing a field then reading it back. -/
theorem getField_setField_self (d : Doc) (k : String) (v : JVal) :
    getField (setField d k v) k = some v := by
  induction d with
  | nil => simp [setField, getField]
  | cons kv rest ih =>
    obtain ⟨a, b⟩ := kv
    by_cases ha : a = k
    · subst ha
      simp [setField, getField]
    · have hka : k ≠ a := fun he => ha he.symm
      simp [setField, getField, ha, hka, ih]

/-- A successful update keeps the stored `createdBy`. -/
theorem updatedDoc_createdBy (doc : Doc) (u : List (String × JVal)) (now : ℚ) :
    getField (updatedDoc doc u now) "createdBy" = getField doc "createdBy" := by
  unfold updatedDoc
  rw [getField_setField_ne _ _ _ _ (by decide)]
  exact getField_applyUpdates_ne _ _ _
    (fun kv hm => (stripProtectedFields_keys u kv hm).1)

/-- A successful update keeps the stored `createdAt`. -/
theorem updatedDoc_createdAt (doc : Doc) (u : List (String × JVal)) (now : ℚ) :
    getField (updatedDoc doc u now) "createdAt" = getField doc "createdAt" := by
  unfold updatedDoc
  rw [getField_setField_ne _ _ _ _ (by decide)]
  exact getField_applyUpdates_ne _ _ _
    (fun kv hm => (stripProtectedFields_keys u kv hm).2)

/-- A successful update refreshes `updatedAt` to the update time. -/
theorem updatedDoc_updatedAt (doc : Doc) (u : List (String × JVal)) (now : ℚ) :
    getField (updatedDoc doc u now) "updatedAt" = some (JVal.jnum now) :=
  getField_setField_self _ _ _

/-- A single update request, successful or not, never changes any product's
owner. -/
theorem applyUpdateOp_owner (db : ProductDB) (op : UpdateOp) (pid : String) :
    productOwner (applyUpdateOp db op) pid = productOwner db pid := by
  unfold applyUpdateOp updateProduct
  cases hget : dbGet db op.id with
  | none => rfl
  | some doc =>
    by_cases hperm : getField doc "createdBy" = some (JVal.jstr op.userId)
    · simp only [hperm, ne_eq, not_true_eq_false, if_false]
      unfold productOwner
      rw [dbGet_dbSet]
      by_cases hpid : pid = op.id
      · subst hpid
        rw [if_pos rfl, hget]
        simp [updatedDoc_createdBy]
      · rw [if_neg hpid]
    · simp [hperm]

/-- No sequence of update requests ever changes any product's owner. -/
theorem runUpdates_owner (ops : List UpdateOp) (db : ProductDB) (pid : String) :
    productOwner (runUpdates db ops) pid = productOwner db pid := by
  induction ops generalizing db with
  | nil => rfl
  | cons op ops ih =>
    show productOwner (runUpdates (applyUpdateOp db op) ops) pid = productOwner db pid
    rw [ih, applyUpdateOp_owner]

/-- C7 (confirmed): for every product update or delete, a missing product
yields the not-found error; a non-owner receives the permission error; the
owner succeeds, with `createdBy` and `createdAt` stripped from the payload
(so they keep their stored values) and `updatedAt` refreshed; and across any
sequence of update requests no product's owner ever changes. -/
theorem claim7_ownership (db : ProductDB) (id : String)
    (u : List (String × JVal)) (uid owner : String) (now : ℚ) (doc : Doc)
    (pl : ℚ) :
    (dbGet db id = none →
      updateProduct db id u uid now = Except.error "Product not found" ∧
      deleteProduct db id uid pl = Except.error "Product not found") ∧
    (dbGet db id = some doc →
      getField doc "createdBy" = some (JVal.jstr owner) → owner ≠ uid →
      updateProduct db id u uid now =
        Except.error "You can only update your own products" ∧
      deleteProduct db id uid pl =
        Except.error "You can only delete your own products") ∧
    (dbGet db id = some doc →
      getField doc "createdBy" = some (JVal.jstr uid) →
      updateProduct db id u uid now =
        Except.ok (updatedDoc doc u now, dbSet db id (updatedDoc doc u now)) ∧
      getField (updatedDoc doc u now) "createdBy" = getField doc "createdBy" ∧
      getField (updatedDoc doc u now) "createdAt" = getField doc "createdAt" ∧
      getField (updatedDoc doc u now) "updatedAt" = some (JVal.jnum now) ∧
      deleteProduct db id uid pl =
        Except.ok (db.filter (fun e => e.1 ≠ id), pl - 1)) ∧
    (∀ (ops : List UpdateOp) (pid : String),
      productOwner (runUpdates db ops) pid = productOwner db pid) := by
  refine ⟨?_, ?_, ?_, fun ops pid => runUpdates_owner ops db pid⟩
  · intro hnone
    constructor
    · simp [updateProduct, hnone]
    · simp [deleteProduct, hnone]
  · intro hget howner hne
    have hperm : getField doc "createdBy" ≠ some (JVal.jstr uid) := by
      rw [howner]
      intro hcontra
      exact hne (JVal.jstr.injEq .. ▸ Option.some.injEq .. ▸ hcontra)
    constructor
    · simp [updateProduct, hget, hperm]
    · simp [deleteProduct, hget, hperm]
  · intro hget howner
    refine ⟨?_, updatedDoc_createdBy doc u now, updatedDoc_createdAt doc u now,
      updatedDoc_updatedAt doc u now, ?_⟩
    · simp [updateProduct, hget, howner]
    · simp [deleteProduct, hget, howner]

/-- C7 witness: a one-product collection owned by `alice`; the owner-success
conjunct instantiated there. -/
theorem claim7_ownership_witness :
    (dbGet [("p1", [("createdBy", JVal.jstr "alice"), ("createdAt", JVal.jnum 5)])]
        "p1" = some [("createdBy", JVal.jstr "alice"), ("createdAt", JVal.jnum 5)]) ∧
    (updateProduct [("p1", [("createdBy", JVal.jstr "alice"), ("createdAt", JVal.jnum 5)])]
        "p1" [("name", JVal.jstr "new"), ("createdBy", JVal.jstr "mallory")]
        "alice" 77 =
      Except.ok
        (updatedDoc [("createdBy", JVal.jstr "alice"), ("createdAt", JVal.jnum 5)]
          [("name", JVal.jstr "new"), ("createdBy", JVal.jstr "mallory")] 77,
         dbSet [("p1", [("createdBy", JVal.jstr "alice"), ("createdAt", JVal.jnum 5)])]
           "p1"
           (updatedDoc [("createdBy", JVal.jstr "alice"), ("createdAt", JVal.jnum 5)]
             [("name", JVal.jstr "new"), ("createdBy", JVal.jstr "mallory")] 77)) ∧
      getField
          (updatedDoc [("createdBy", JVal.jstr "alice"), ("createdAt", JVal.jnum 5)]
            [("name", JVal.jstr "new"), ("createdBy", JVal.jstr "mallory")] 77)
          "createdBy" =
        getField [("createdBy", JVal.jstr "alice"), ("createdAt", JVal.jnum 5)]
          "createdBy" ∧
      getField
          (updatedDoc [("createdBy", JVal.jstr "alice"), ("createdAt", JVal.jnum 5)]
            [("name", JVal.jstr "new"), ("createdBy", JVal.jstr "mallory")] 77)
          "createdAt" =
        getField [("createdBy", JVal.jstr "alice"), ("createdAt", JVal.jnum 5)]
          "createdAt" ∧
      getField
          (updatedDoc [("createdBy", JVal.jstr "alice"), ("createdAt", JVal.jnum 5)]
            [("name", JVal.jstr "new"), ("createdBy", JVal.jstr "mallory")] 77)
          "updatedAt" = some (JVal.jnum 77) ∧
      deleteProduct [("p1", [("createdBy", JVal.jstr "alice"), ("createdAt", JVal.jnum 5)])]
          "p1" "alice" 3 =
        Except.ok
          ([("p1", [("createdBy", JVal.jstr "alice"), ("createdAt", JVal.jnum 5)])].filter
            (fun e => e.1 ≠ "p1"), 3 - 1)) :=
  ⟨rfl,
   (claim7_ownership
      [("p1", [("createdBy", JVal.jstr "alice"), ("createdAt", JVal.jnum 5)])]
      "p1" [("name", JVal.jstr "new"), ("createdBy", JVal.jstr "mallory")]
      "alice" "alice" 77
      [("createdBy", JVal.jstr "alice"), ("createdAt", JVal.jnum 5)] 3).2.2.1
     rfl rfl⟩

/-- An auto-generated SKU is never the empty string. -/
theorem generatedSku_ne_empty (now : Nat) (rand : String) :
    generatedSku now rand ≠ "" := by
  unfold generatedSku
  intro h
  have hlen : ("SKU-" ++ toString now ++ "-" ++ rand).length = 0 := by
    rw [h]
    rfl
  have h4 : ("SKU-" : String).length = 4 := rfl
  simp [String.length_append] at hlen
  omega

/-- Marking images keeps their number. -/
theorem markPrimaryImages_length (images : List ProductImage) :
    (markPrimaryImages images).length = images.length := by
  simp [markPrimaryImages]

/-- After marking, exactly the image at index 0 is primary. -/
theorem markPrimaryImages_get (images : List ProductImage) (i : ℕ)
    (hi : i < (markPrimaryImages images).length) :
    ((markPrimaryImages images).get ⟨i, hi⟩).isPrimary = decide (i = 0) := by
  have hlen : i < images.length := by
    simpa [markPrimaryImages] using hi
  unfold markPrimaryImages
  rw [List.get_mapIdx images _ i hlen]
  cases i <;> rfl

/-- C8 (confirmed): product creation checks `name, price, category, location`
in order and fails with a validation error naming the first missing field;
when all are present (truthy) it succeeds, persisting `createdBy` = the
acting user and incrementing the user's `productsListed` counter by 1; when
no SKU is supplied it uses the auto-generated, never-empty
`SKU-<timestamp>-<random>`; and exactly the first supplied image is marked
primary. -/
theorem claim8_create (d : ProductInput) (uid : String) (now : Nat)
    (rand : String) (pl : ℚ) :
    (truthyStr d.name = false →
      createProduct d uid now rand pl = Except.error "name is required") ∧
    (truthyStr d.name = true → truthyNum d.price = false →
      createProduct d uid now rand pl = Except.error "price is required") ∧
    (truthyStr d.name = true → truthyNum d.price = true →
      truthyStr d.category = false →
      createProduct d uid now rand pl = Except.error "category is required") ∧
    (truthyStr d.name = true → truthyNum d.price = true →
      truthyStr d.category = true → d.location = none →
      createProduct d uid now rand pl = Except.error "location is required") ∧
    (truthyStr d.name = true → truthyNum d.price = true →
      truthyStr d.category = true → d.location.isNone = false →
      createProduct d uid now rand pl =
        Except.ok (createdRecord d uid now rand, pl + 1) ∧
      (createdRecord d uid now rand).createdBy = uid ∧
      (d.inventory.bind (fun i => i.sku) = none →
        (createdRecord d uid now rand).sku = generatedSku now rand) ∧
      generatedSku now rand ≠ "" ∧
      (createdRecord d uid now rand).images.length = d.images.length ∧
      ∀ (i : ℕ) (hi : i < (createdRecord d uid now rand).images.length),
        ((createdRecord d uid now rand).images.get ⟨i, hi⟩).isPrimary =
          decide (i = 0)) := by
  refine ⟨?_, ?_, ?_, ?_, ?_⟩
  · intro h1
    simp [createProduct, missingRequiredField, h1]
  · intro h1 h2
    simp [createProduct, missingRequiredField, h1, h2]
  · intro h1 h2 h3
    simp [createProduct, missingRequiredField, h1, h2, h3]
  · intro h1 h2 h3 h4
    simp [createProduct, missingRequiredField, h1, h2, h3, h4]
  · intro h1 h2 h3 h4
    have hmiss : missingRequiredField d = none := by
      simp [missingRequiredField, h1, h2, h3, h4]
    refine ⟨by simp [createProduct, hmiss], rfl, ?_,
      generatedSku_ne_empty now rand, markPrimaryImages_length d.images,
      fun i hi => markPrimaryImages_get d.images i hi⟩
    intro hsku
    simp [createdRecord, createdSku, hsku]

/-- C8 witness: the success conjunct at a concrete payload with two images
and no SKU. -/
theorem claim8_create_witness :
    truthyStr (some "bike") = true ∧
    createProduct
        { name := some "bike", price := some 3, category := some "sports",
          location := some (1, 2),
          images := [{ url := "a" }, { url := "b", isPrimary := true }] }
        "u1" 99 "r4nd0m" 0 =
      Except.ok
        (createdRecord
          { name := some "bike", price := some 3, category := some "sports",
            location := some (1, 2),
            images := [{ url := "a" }, { url := "b", isPrimary := true }] }
          "u1" 99 "r4nd0m", 0 + 1) ∧
    (createdRecord
        { name := some "bike", price := some 3, category := some "sports",
          location := some (1, 2),
          images := [{ url := "a" }, { url := "b", isPrimary := true }] }
        "u1" 99 "r4nd0m").sku = generatedSku 99 "r4nd0m" ∧
    generatedSku 99 "r4nd0m" = "SKU-99-r4nd0m" := by
  have h :=
    claim8_create
      { name := some "bike", price := some 3, category := some "sports",
        location := some (1, 2),
        images := [{ url := "a" }, { url := "b", isPrimary := true }] }
      "u1" 99 "r4nd0m" 0
  obtain ⟨hok, -, hsku, -, -, -⟩ := h.2.2.2.2 rfl (by norm_num [truthyNum]) rfl rfl
  exact ⟨rfl, hok, hsku rfl, rfl⟩

/-- C10 (confirmed): the required-field check uses JS truthiness, so
`createProduct` rejects a price of 0 with the "required" validation error
(even though the schema itself allows price 0), and likewise rejects an
empty-string name or category. -/
theorem claim10_falsy_required (d : ProductInput) (uid : String) (now : Nat)
    (rand : String) (pl : ℚ) :
    priceSchemaAllows 0 = true ∧
    (d.name = some "" →
      createProduct d uid now rand pl = Except.error "name is required") ∧
    (truthyStr d.name = true → d.price = some 0 →
      createProduct d uid now rand pl = Except.error "price is required") ∧
    (truthyStr d.name = true → truthyNum d.price = true → d.category = some "" →
      createProduct d uid now rand pl = Except.error "category is required") := by
  refine ⟨rfl, ?_, ?_, ?_⟩
  · intro hname
    have h1 : truthyStr d.name = false := by rw [hname]; rfl
    simp [createProduct, missingRequiredField, h1]
  · intro h1 hprice
    have h2 : truthyNum d.price = false := by rw [hprice]; rfl
    simp [createProduct, missingRequiredField, h1, h2]
  · intro h1 h2 hcat
    have h3 : truthyStr d.category = false := by rw [hcat]; rfl
    simp [createProduct, missingRequiredField, h1, h2, h3]

/-- C10 witness: a payload with price 0 (allowed by the schema) is rejected
as "price is required". -/
theorem claim10_falsy_required_witness :
    priceSchemaAllows 0 = true ∧
    createProduct
        { name := some "bike", price := some 0, category := some "sports",
          location := some (1, 2) }
        "u1" 99 "r4nd0m" 0 = Except.error "price is required" :=
  ⟨(claim10_falsy_required
      { name := some "bike", price := some 0, category := some "sports",
        location := some (1, 2) } "u1" 99 "r4nd0m" 0).1,
   (claim10_falsy_required
      { name := some "bike", price := some 0, category := some "sports",
        location := some (1, 2) } "u1" 99 "r4nd0m" 0).2.2.1 rfl rfl⟩

end BullMart
